import Mathlib

/-!
Shallow embedding of the WeatherApp repository (backend/app.js Express
handler and frontend/src/App.js React component) together with proofs of
the behavioural claims about it.

Conventions of the embedding:
* JS numbers that only flow through the program (temperatures) are
  modelled as Int; no arithmetic is ever performed on them in the source.
* Times are milliseconds since epoch, modelled as Int; a JS Date that is
  an Invalid Date is modelled as none (every numeric comparison against
  it is false, which is exactly the NaN behaviour the source relies on).
* A thrown-and-caught JS exception is modelled with Option/Except.
-/

namespace WeatherApp

/-- One entry of the `weather` array of an upstream record. -/
structure UpstreamWeather where
  description : String
deriving Repr, DecidableEq

/-- The `main` object of an upstream record. -/
structure UpstreamMain where
  temp : Int
  feels_like : Int
deriving Repr, DecidableEq

/-- One record of the upstream `list` array returned by the provider. -/
structure UpstreamRecord where
  dt_txt : String
  main : UpstreamMain
  weather : List UpstreamWeather
deriving Repr, DecidableEq

/-- The object the backend builds per record inside `res.json(...)`. -/
structure ForecastSlot where
  date : String
  temperature : Int
  description : String
  feels_like : Int
deriving Repr, DecidableEq

/-- Outcome of the `axios.get` call to the upstream provider.
`ok list` is a 2xx response whose body has a usable `list` array;
`networkError` is a request that never got a response; `httpError s` is a
non-2xx status (axios rejects; an unknown city is `httpError 404`);
`malformedBody` is a 2xx response whose body has no usable `list`
(so `response.data.list.slice` throws). -/
inductive UpstreamResult where
  | ok (list : List UpstreamRecord)
  | networkError
  | httpError (status : Nat)
  | malformedBody
deriving Repr, DecidableEq

/-- Body of the HTTP response sent by the `/weather` handler. -/
inductive ResponseBody where
  | slots (s : List ForecastSlot)
  | error (msg : String)
deriving Repr, DecidableEq

/-- An HTTP response of the `/weather` handler. -/
structure HttpResponse where
  status : Nat
  body : ResponseBody
deriving Repr, DecidableEq

/-- `item.weather[0].description` in JS: accessing `.description` of
`undefined` throws when the `weather` array is empty, hence Option. -/
def slotOfRecord (item : UpstreamRecord) : Option ForecastSlot :=
  match item.weather with
  | [] => none
  | w :: _ =>
    some { date := item.dt_txt, temperature := item.main.temp,
           description := w.description, feels_like := item.main.feels_like }

/-- Total version of `slotOfRecord`, agreeing with it whenever the
record has at least one weather entry. -/
def slotOfRecordD (item : UpstreamRecord) : ForecastSlot :=
  { date := item.dt_txt, temperature := item.main.temp,
    description := (item.weather.headD { description := "" }).description,
    feels_like := item.main.feels_like }

/-- `weatherData.map(item => ...)` in JS: evaluated left to right, and a
throw at any element aborts the whole map (the handler then catches it). -/
def mapSlots : List UpstreamRecord → Option (List ForecastSlot)
  | [] => some []
  | r :: rs =>
    match slotOfRecord r with
    | none => none
    | some s => (mapSlots rs).map (fun l => s :: l)

/-- The generic error body the catch branch sends. -/
def fetchErrorMessage : String := "Error fetching weather data"

/-- The `GET /weather` handler of backend/app.js.  `upstream` models the
axios call as a function of the city string.  Any throw inside the try
block (axios rejection or malformed data) lands in the catch branch,
which answers 500 with the one generic error body. -/
def getWeather (upstream : String → UpstreamResult) (city : String) : HttpResponse :=
  match upstream city with
  | .ok list =>
    match mapSlots (list.take (5 * 8)) with
    | some slots => { status := 200, body := .slots slots }
    | none => { status := 500, body := .error fetchErrorMessage }
  | .networkError => { status := 500, body := .error fetchErrorMessage }
  | .httpError _ => { status := 500, body := .error fetchErrorMessage }
  | .malformedBody => { status := 500, body := .error fetchErrorMessage }

/-! Frontend: frontend/src/App.js. -/

/-- The static accent table `accents` of App.js, in source order. -/
def accents : List (String × String) :=
  [("british_male", "Google UK English Male"),
   ("british_female", "Google UK English Female"),
   ("british_slang", "Google UK English Male"),
   ("french_male", "Google français"),
   ("french_female", "Google français"),
   ("italian_male", "Google italiano Male"),
   ("italian_female", "Google italiano Female"),
   ("jamaican_male", "Google US English Male"),
   ("jamaican_female", "Google US English Female")]

/-- A platform speech-synthesis voice (only its name matters here). -/
structure Voice where
  name : String
deriving Repr, DecidableEq

/-- `getVoices().find(voice => voice.name === accents[accent])`: the
first voice whose name equals the table entry, if any.  For a key absent
from the table, `accents[accent]` is `undefined` and the find fails,
which the embedding renders as `none` as well. -/
def selectVoice (accent : String) (voices : List Voice) : Option Voice :=
  match accents.lookup accent with
  | some vname => voices.find? (fun v => v.name == vname)
  | none => none

/-- The per-slot sentence template of `speakWeather`.  `render` stands
for `date => new Date(date).toLocaleDateString()`, which is locale
dependent and therefore kept abstract. -/
def sentenceOfSlot (render : String → String) (item : ForecastSlot) : String :=
  "On " ++ render item.date ++ ", the temperature will be " ++
  toString item.temperature ++ " degrees Celsius, feels like " ++
  toString item.feels_like ++ " degrees, with " ++ item.description ++ "."

/-- `Array.prototype.join(sep)` of JS: empty array gives the empty
string, and `sep` goes strictly between consecutive elements. -/
def joinSep (sep : String) : List String → String
  | [] => ""
  | [x] => x
  | x :: y :: xs => x ++ sep ++ joinSep sep (y :: xs)

/-- The intro sentence of the utterance built by `speakWeather`. -/
def introSentence (city : String) : String :=
  "Here is the weather for the next 5 days in " ++ city ++ "."

/-- Full utterance text: intro concatenated with the joined per-slot
sentences, exactly as constructed in `speakWeather`. -/
def utteranceText (render : String → String) (city : String)
    (weather : List ForecastSlot) : String :=
  introSentence city ++ joinSep " " (weather.map (sentenceOfSlot render))

/-- What `window.speechSynthesis.speak` receives: the utterance text and
the voice set on the utterance (`none` models `utterance.voice` left as
`undefined`, in which case the platform uses its own default voice). -/
structure SpeechRequest where
  text : String
  voice : Option Voice
deriving Repr, DecidableEq

/-- `speakWeather` of App.js: guarded on a nonempty stored forecast
list; when the guard fails nothing is submitted to the speech sink. -/
def speakWeather (render : String → String) (city accent : String)
    (voices : List Voice) (weather : List ForecastSlot) : Option SpeechRequest :=
  if weather.length > 0 then
    some { text := utteranceText render city weather,
           voice := selectVoice accent voices }
  else
    none

/-- Outcome of the client fetch of `/weather`: the body parsed as JSON,
a network error (fetch rejects), or an unparsable body (json rejects). -/
inductive FetchOutcome where
  | ok (data : List ForecastSlot)
  | networkError
  | parseError
deriving Repr, DecidableEq

/-- `fetchWeather` of App.js as a state transformer on the stored
forecast list, also returning the console log lines it emits.  On
success it replaces the state with the parsed data; in the catch branch
it only logs and leaves the state untouched. -/
def fetchWeather (st : List ForecastSlot) (outcome : FetchOutcome) :
    List ForecastSlot × List String :=
  match outcome with
  | .ok data => (data, [])
  | .networkError => (st, ["Error fetching weather:"])
  | .parseError => (st, ["Error fetching weather:"])

/-- Result of one click of the schedule button. -/
inductive ScheduleResult where
  | armed (delay : Int)
  | rejected (msg : String)
deriving Repr, DecidableEq

/-- The alert text of the rejection branch of `scheduleSpeech`. -/
def rejectionMessage : String := "Scheduled time must be in the future."

/-- `scheduleSpeech` of App.js.  `now` is the current time in
milliseconds; `scheduleDate` is `new Date(scheduleTime)`, with `none`
for an Invalid Date (every comparison against NaN is false, so an
unparsable input string falls into the alert branch).  Only when the
parsed time is strictly in the future is a single one-shot
`setTimeout` armed, with delay `scheduleDate - now`. -/
def scheduleSpeech (now : Int) (scheduleDate : Option Int) : ScheduleResult :=
  match scheduleDate with
  | some t => if now < t then .armed (t - now) else .rejected rejectionMessage
  | none => .rejected rejectionMessage

/-- Times at which the callback armed by one `scheduleSpeech` call runs
(and hence invokes the aggregator via `fetchWeather`): a one-shot timer
with delay d armed at `now` fires exactly once, at `now + d`; a rejected
request arms no timer, so the aggregator is never invoked for it. -/
def aggregatorCallTimes (now : Int) (scheduleDate : Option Int) : List Int :=
  match scheduleSpeech now scheduleDate with
  | .armed d => [now + d]
  | .rejected _ => []

/-! Spec-side definitions, written from the words of the specification,
used to compare the constructed utterance against the specified shape. -/

/-- From the spec: the sentence spoken for one slot, of the form
On date, the temperature will be t degrees Celsius, feels like f
degrees, with d. -/
def spec_sentence (render : String → String) (item : ForecastSlot) : String :=
  "On " ++ render item.date ++ ", the temperature will be " ++
  toString item.temperature ++ " degrees Celsius, feels like " ++
  toString item.feels_like ++ " degrees, with " ++ item.description ++ "."

/-- From the spec: every sentence after the first is preceded by a
single separating space. -/
def spec_tail : List String → String
  | [] => ""
  | s :: rest => " " ++ s ++ spec_tail rest

/-- From the spec: the concatenation of one sentence per slot in bundle
order, consecutive sentences separated by a single space. -/
def spec_concat : List String → String
  | [] => ""
  | s :: rest => s ++ spec_tail rest

/-- From the spec: intro sentence concatenated with one sentence per
ForecastSlot, in bundle order. -/
def spec_utterance (render : String → String) (city : String)
    (weather : List ForecastSlot) : String :=
  introSentence city ++ spec_concat (weather.map (spec_sentence render))

/-! Helper lemmas shared by the claim theorems. -/

/-- When every record has at least one weather entry, the fallible map
succeeds and agrees with the total extraction, elementwise in order. -/
theorem mapSlots_eq_map (l : List UpstreamRecord) (h : ∀ r ∈ l, r.weather ≠ []) :
    mapSlots l = some (l.map slotOfRecordD) := by
  induction l with
  | nil => rfl
  | cons r rs ih =>
    have hr : r.weather ≠ [] := h r (List.mem_cons_self r rs)
    cases hw : r.weather with
    | nil => exact absurd hw hr
    | cons w ws =>
      have ihs := ih (fun x hx => h x (List.mem_cons_of_mem r hx))
      simp [mapSlots, slotOfRecord, slotOfRecordD, hw, ihs]

/-- The JS join with a space separator equals the spec-side shape that
puts a space before each sentence after the first. -/
theorem joinSep_cons_eq (x : String) (l : List String) :
    joinSep " " (x :: l) = x ++ spec_tail l := by
  induction l generalizing x with
  | nil => simp [joinSep, spec_tail]
  | cons y ys ih =>
    simp [joinSep, spec_tail, ih, String.append_assoc]

/-- The JS join with a space separator equals the spec-side
concatenation. -/
theorem joinSep_eq_spec_concat (l : List String) :
    joinSep " " l = spec_concat l := by
  cases l with
  | nil => rfl
  | cons x xs => simpa [spec_concat] using joinSep_cons_eq x xs

/-! Claim theorems. -/

/-- C1: for every city, when the upstream provider returns a list of at
least 40 well-formed records, the GET weather endpoint answers 200 with
exactly 40 ForecastSlot objects, in the order of the first 40 upstream
records, each slot extracting dt_txt, main.temp, main.feels_like and the
description of the first weather condition of its record. -/
theorem getWeather_forty (upstream : String → UpstreamResult) (city : String)
    (list : List UpstreamRecord) (hup : upstream city = .ok list)
    (hK : 40 ≤ list.length) (hw : ∀ r ∈ list.take 40, r.weather ≠ []) :
    getWeather upstream city =
      { status := 200, body := .slots ((list.take 40).map slotOfRecordD) } ∧
    ((list.take 40).map slotOfRecordD).length = 40 ∧
    ∀ r ∈ list.take 40, ∃ w ws, r.weather = w :: ws ∧
      slotOfRecordD r = { date := r.dt_txt, temperature := r.main.temp,
                          description := w.description,
                          feels_like := r.main.feels_like } := by
  refine ⟨?_, ?_, ?_⟩
  · have h40 : (5 : Nat) * 8 = 40 := by norm_num
    simp only [getWeather, hup, h40, mapSlots_eq_map _ hw]
  · simp only [List.length_map, List.length_take]
    omega
  · intro r hr
    cases hwr : r.weather with
    | nil => exact absurd hwr (hw r hr)
    | cons w ws =>
      exact ⟨w, ws, rfl, by simp [slotOfRecordD, hwr]⟩

/-- C1 witness: a concrete upstream with 41 records. -/
theorem getWeather_forty_witness :
    (fun _ : String => UpstreamResult.ok (List.replicate 41
        { dt_txt := "2024-01-01 00:00:00",
          main := { temp := 5, feels_like := 3 },
          weather := [{ description := "clear sky" }] })) "London" =
      .ok (List.replicate 41
        { dt_txt := "2024-01-01 00:00:00",
          main := { temp := 5, feels_like := 3 },
          weather := [{ description := "clear sky" }] }) ∧
    getWeather (fun _ : String => UpstreamResult.ok (List.replicate 41
        { dt_txt := "2024-01-01 00:00:00",
          main := { temp := 5, feels_like := 3 },
          weather := [{ description := "clear sky" }] })) "London" =
      { status := 200,
        body := .slots (((List.replicate 41
          ({ dt_txt := "2024-01-01 00:00:00",
             main := { temp := 5, feels_like := 3 },
             weather := [{ description := "clear sky" }] } :
            UpstreamRecord)).take 40).map slotOfRecordD) } := by
  refine ⟨rfl, ?_⟩
  exact (getWeather_forty _ "London" _ rfl (by decide)
    (by intro r hr; simp [List.eq_of_mem_replicate (List.mem_of_mem_take hr)])).1

/-- C2: every upstream failure, whether a network error, a non-2xx
status (including an unknown city), or a malformed response body, makes
the GET weather endpoint answer 500 with the single generic error body,
and never a forecast list, partial or otherwise. -/
theorem getWeather_failure (upstream : String → UpstreamResult) (city : String)
    (h : upstream city = .networkError ∨ (∃ s, upstream city = .httpError s) ∨
         upstream city = .malformedBody) :
    getWeather upstream city = { status := 500, body := .error fetchErrorMessage } ∧
    ∀ slots, (getWeather upstream city).body ≠ .slots slots := by
  have hresp : getWeather upstream city =
      { status := 500, body := .error fetchErrorMessage } := by
    rcases h with h | ⟨s, h⟩ | h <;> simp [getWeather, h]
  exact ⟨hresp, by simp [hresp]⟩

/-- C2 witness: a concrete upstream network failure. -/
theorem getWeather_failure_witness :
    getWeather (fun _ : String => UpstreamResult.networkError) "London" =
      { status := 500, body := .error fetchErrorMessage } :=
  (getWeather_failure (fun _ => .networkError) "London" (Or.inl rfl)).1

/-- C3: a target time not strictly later than now is rejected
synchronously with the user-visible alert, no timer is armed, and the
aggregator is never invoked for that request. -/
theorem scheduleSpeech_past (now t : Int) (h : t ≤ now) :
    scheduleSpeech now (some t) = .rejected rejectionMessage ∧
    aggregatorCallTimes now (some t) = [] := by
  have hlt : ¬ now < t := not_lt.mpr h
  constructor
  · simp [scheduleSpeech, hlt]
  · simp [aggregatorCallTimes, scheduleSpeech, hlt]

/-- C3 witness: scheduling for the current instant is rejected. -/
theorem scheduleSpeech_past_witness :
    scheduleSpeech 1000 (some 1000) = .rejected rejectionMessage ∧
    aggregatorCallTimes 1000 (some 1000) = [] :=
  scheduleSpeech_past 1000 1000 (by decide)

/-- C4: when the upstream provider returns fewer than 40 well-formed
records, the GET weather endpoint answers 200 with exactly that many
slots, in order, with no padding and no error. -/
theorem getWeather_short (upstream : String → UpstreamResult) (city : String)
    (list : List UpstreamRecord) (hup : upstream city = .ok list)
    (hK : list.length < 40) (hw : ∀ r ∈ list, r.weather ≠ []) :
    getWeather upstream city =
      { status := 200, body := .slots (list.map slotOfRecordD) } ∧
    (list.map slotOfRecordD).length = list.length := by
  have htake : list.take (5 * 8) = list :=
    List.take_of_length_le (by omega)
  constructor
  · simp only [getWeather, hup, htake, mapSlots_eq_map _ hw]
  · simp

/-- C4 witness: a concrete upstream with a single record. -/
theorem getWeather_short_witness :
    getWeather (fun _ : String => UpstreamResult.ok
        [{ dt_txt := "2024-01-01 00:00:00",
             main := { temp := 5, feels_like := 3 },
             weather := [{ description := "clear sky" }] }]) "Paris" =
      { status := 200,
        body := .slots (([{ dt_txt := "2024-01-01 00:00:00",
                              main := { temp := 5, feels_like := 3 },
                              weather := [{ description := "clear sky" }] }] :
             List UpstreamRecord).map slotOfRecordD) } :=
  (getWeather_short _ "Paris" _ rfl (by decide)
    (by intro r hr; simp at hr; simp [hr])).1

/-- C5: a target time strictly in the future arms exactly one one-shot
callback whose delay is the target time minus now, and that callback
invokes the aggregator exactly once, at the target time and not
before. -/
theorem scheduleSpeech_future (now d : Int) (h : 0 < d) :
    scheduleSpeech now (some (now + d)) = .armed d ∧
    aggregatorCallTimes now (some (now + d)) = [now + d] := by
  have hlt : now < now + d := by omega
  constructor
  · simp [scheduleSpeech, hlt]
  · simp [aggregatorCallTimes, scheduleSpeech, hlt]

/-- C5 witness: scheduling one second ahead. -/
theorem scheduleSpeech_future_witness :
    scheduleSpeech 1000 (some (1000 + 1000)) = .armed 1000 ∧
    aggregatorCallTimes 1000 (some (1000 + 1000)) = [1000 + 1000] :=
  scheduleSpeech_future 1000 1000 (by decide)

/-- C6: for an accent key with table entry vname, if the platform voice
list has a voice named exactly vname then the speech request selects
such a voice; if no voice has that exact name, no voice is set on the
utterance, so the request proceeds with the platform default voice and
no error is surfaced. -/
theorem selectVoice_correct (key vname : String) (voices : List Voice)
    (h : accents.lookup key = some vname) :
    ((∃ v ∈ voices, v.name = vname) →
       ∃ w, selectVoice key voices = some w ∧ w.name = vname) ∧
    ((∀ v ∈ voices, v.name ≠ vname) → selectVoice key voices = none) := by
  constructor
  · rintro ⟨v, hv, hname⟩
    have hsome : (voices.find? (fun v => v.name == vname)).isSome := by
      rw [List.find?_isSome]
      exact ⟨v, hv, by simp [hname]⟩
    obtain ⟨w, hwfind⟩ := Option.isSome_iff_exists.mp hsome
    refine ⟨w, ?_, ?_⟩
    · simp [selectVoice, h, hwfind]
    · have := List.find?_some hwfind
      simpa using this
  · intro hall
    have hnone : voices.find? (fun v => v.name == vname) = none := by
      rw [List.find?_eq_none]
      intro v hv
      simp [hall v hv]
    simp [selectVoice, h, hnone]

/-- C6 witness: the british_male key against a list containing the
mapped voice name selects that voice. -/
theorem selectVoice_correct_witness :
    ∃ w, selectVoice "british_male"
        [{ name := "Other Voice" }, { name := "Google UK English Male" }] = some w ∧
      w.name = "Google UK English Male" :=
  (selectVoice_correct "british_male" "Google UK English Male"
      [{ name := "Other Voice" }, { name := "Google UK English Male" }]
      (by decide)).1
    ⟨{ name := "Google UK English Male" }, by simp, rfl⟩

/-- C7: for a nonempty stored forecast list, the spoken utterance is the
intro sentence concatenated with one sentence per ForecastSlot in bundle
order, each of the specified form. -/
theorem speakWeather_utterance (render : String → String) (city accent : String)
    (voices : List Voice) (weather : List ForecastSlot) (h : weather ≠ []) :
    ∃ req, speakWeather render city accent voices weather = some req ∧
      req.text = spec_utterance render city weather := by
  have hlen : weather.length > 0 := List.length_pos.mpr h
  refine ⟨{ text := utteranceText render city weather,
            voice := selectVoice accent voices }, ?_, ?_⟩
  · simp [speakWeather, hlen]
  · show utteranceText render city weather = spec_utterance render city weather
    have hsent : sentenceOfSlot render = spec_sentence render := rfl
    simp [utteranceText, spec_utterance, joinSep_eq_spec_concat, hsent]

/-- C7 witness: a one-slot bundle. -/
theorem speakWeather_utterance_witness :
    ∃ req, speakWeather id "London" "british_male" []
        [{ date := "2024-01-01 00:00:00", temperature := 5,
             description := "clear sky", feels_like := 3 }] = some req ∧
      req.text = spec_utterance id "London"
        [{ date := "2024-01-01 00:00:00", temperature := 5,
             description := "clear sky", feels_like := 3 }] :=
  speakWeather_utterance id "London" "british_male" []
    [{ date := "2024-01-01 00:00:00", temperature := 5,
         description := "clear sky", feels_like := 3 }] (by simp)

/-- C8: an unparsable schedule-time string yields an Invalid Date,
which takes the same rejection path as a past time: the user-visible
rejection alert, no timer armed and no aggregator call, exactly as for
a time equal to now. -/
theorem scheduleSpeech_invalid (now : Int) :
    scheduleSpeech now none = .rejected rejectionMessage ∧
    scheduleSpeech now none = scheduleSpeech now (some now) ∧
    aggregatorCallTimes now none = [] := by
  refine ⟨rfl, ?_, rfl⟩
  simp [scheduleSpeech]

/-- C9: with an empty stored forecast list, speakWeather constructs no
utterance and submits nothing to the speech sink. -/
theorem speakWeather_empty (render : String → String) (city accent : String)
    (voices : List Voice) :
    speakWeather render city accent voices [] = none := by
  simp [speakWeather]

/-- C10: a failed client fetch (network error or unparsable body) only
logs and leaves the stored forecast state unchanged. -/
theorem fetchWeather_error (st : List ForecastSlot) (outcome : FetchOutcome)
    (h : outcome = .networkError ∨ outcome = .parseError) :
    (fetchWeather st outcome).1 = st ∧
    (fetchWeather st outcome).2 = ["Error fetching weather:"] := by
  rcases h with h | h <;> subst h <;> exact ⟨rfl, rfl⟩

/-- C10 witness: a network error against a concrete stored state. -/
theorem fetchWeather_error_witness :
    (fetchWeather [{ date := "d", temperature := 1,
                       description := "x", feels_like := 0 }]
        FetchOutcome.networkError).1 =
      [{ date := "d", temperature := 1, description := "x", feels_like := 0 }] :=
  (fetchWeather_error _ FetchOutcome.networkError (Or.inl rfl)).1

end WeatherApp
